import Mathlib

/-!
Verification of the AltTester python starter project test harness.

Shallow embedding of the driver lifecycle fixture (tests/conftest.py),
the Reporter utilities (common/reporter.py), the configuration and driver
container (common/test_configuration.py, common/driver_container.py) and
the page objects (views/base_view.py, views/main_menu_view.py,
views/gameplay_view.py).  External SDK calls (AltDriver, selenium, appium,
allure) are modelled as abstract outcomes; file IO is modelled as an
association list from paths to contents.
-/

/-! ## Python path and string primitives -/

/-- Index of the last occurrence of a character, accumulator form. -/
def rfindIdxAux (c : Char) : List Char → Nat → Option Nat → Option Nat
  | [], _, acc => acc
  | x :: xs, i, acc => rfindIdxAux c xs (i + 1) (if x = c then some i else acc)

/-- Index of the last occurrence of a character in a list, as in str.rfind. -/
def rfindIdx (cs : List Char) (c : Char) : Option Nat :=
  rfindIdxAux c cs 0 none

/-- Model of os.path.basename: the part after the last path separator. -/
def py_basename (p : String) : String :=
  match rfindIdx p.toList '/' with
  | none => p
  | some i => String.mk (p.toList.drop (i + 1))

/-- Model of os.path.splitext: split at the last dot of the final path
component, provided some non-dot character precedes that dot inside the
component (so dotfiles such as .bashrc have no extension). -/
def py_splitext (p : String) : String × String :=
  let cs := p.toList
  match rfindIdx cs '.' with
  | none => (p, "")
  | some dotIdx =>
    let sepBound : Nat :=
      match rfindIdx cs '/' with
      | none => 0
      | some sepIdx => sepIdx + 1
    if sepBound ≤ dotIdx ∧ ((cs.drop sepBound).take (dotIdx - sepBound)).any (fun ch => ch ≠ '.') then
      (String.mk (cs.take dotIdx), String.mk (cs.drop dotIdx))
    else (p, "")

/-- Model of str.lower restricted to the ASCII case used by the code. -/
def py_lower (s : String) : String :=
  String.mk (s.toList.map Char.toLower)

/-- Whether a path string starts with the path separator. -/
def startsWithSep (s : String) : Bool :=
  match s.toList with
  | [] => false
  | c :: _ => c = '/'

/-- Whether a path string ends with the path separator. -/
def endsWithSep (s : String) : Bool :=
  match s.toList.getLast? with
  | none => false
  | some c => c = '/'

/-- Model of os.path.join for the shapes the code uses. -/
def py_path_join (a b : String) : String :=
  if startsWithSep b then b
  else if a = "" ∨ endsWithSep a then a ++ b
  else a ++ "/" ++ b

/-! ## Association-list filesystem and dictionaries -/

/-- Lookup in an association list keyed by strings. -/
def fs_lookup {α : Type} : List (String × α) → String → Option α
  | [], _ => none
  | (q, v) :: rest, p => if q = p then some v else fs_lookup rest p

/-- Append lines to the file at a path, creating the file when absent:
the model of open(path, "a") followed by writes. -/
def fs_update : List (String × List String) → String → List String → List (String × List String)
  | [], p, ls => [(p, ls)]
  | (q, old) :: rest, p, ls =>
    if q = p then (q, old ++ ls) :: rest else (q, old) :: fs_update rest p ls

/-- Model of dict.pop(key, None): remove the first entry with the key. -/
def assoc_pop {α : Type} : List (String × α) → String → List (String × α)
  | [], _ => []
  | (q, v) :: rest, p => if q = p then rest else (q, v) :: assoc_pop rest p

/-- The lines of a file, empty when the file does not exist. -/
def fileLines (fs : List (String × List String)) (p : String) : List String :=
  (fs_lookup fs p).getD []

/-! ## Configuration (common/test_configuration.py) -/

/-- Supported platforms for test execution. -/
inductive PlatformType
  | android
  | ios
  | webgl
deriving DecidableEq, Repr

/-- Environment-derived test settings. -/
structure TestConfiguration where
  platform : PlatformType
  runningWithAppium : Bool
  runningWithSelenium : Bool
  webglUrl : String
  altServerUrl : String
  altServerPort : Nat
  altAppName : String
  deviceName : String
  appBundleId : String
deriving DecidableEq, Repr

/-! ## Driver handles and container (common/driver_container.py) -/

/-- Handle to the AltTester driver, recording the connection arguments. -/
structure AltDriver where
  host : String
  port : Nat
  app_name : String
deriving DecidableEq, Repr

/-- Handle to the selenium Chrome driver, recording the navigated URL. -/
structure SeleniumDriver where
  currentUrl : String
deriving DecidableEq, Repr

/-- Handle to the appium driver, recording the desired capabilities. -/
structure AppiumDriver where
  caps : List (String × String)
deriving DecidableEq, Repr

/-- Container for the different driver handles used in tests. -/
structure DriverContainer where
  alt_driver : Option AltDriver
  appium_driver : Option AppiumDriver
  selenium_driver : Option SeleniumDriver
deriving DecidableEq, Repr

/-! ## Reporter (common/reporter.py) -/

/-- Allure attachment content types used by the Reporter. -/
inductive AttachmentType
  | TEXT
  | JSON
  | XML
  | HTML
  | CSV
  | PNG
deriving DecidableEq, Repr

/-- The content_type_map dictionary of Reporter.attach_file_to_allure. -/
def content_type_map : List (String × AttachmentType) :=
  [(".txt", AttachmentType.TEXT),
   (".log", AttachmentType.TEXT),
   (".json", AttachmentType.JSON),
   (".xml", AttachmentType.XML),
   (".html", AttachmentType.HTML),
   (".csv", AttachmentType.CSV)]

/-- One attachment handed to the report sink. -/
structure Attachment where
  name : String
  bytes : List Nat
  attachment_type : AttachmentType
deriving DecidableEq, Repr

/-- Observable outcome of Reporter.attach_file_to_allure. -/
structure AttachResult where
  attachments : List Attachment
  logs : List String
  raised : Bool
deriving DecidableEq, Repr

/-- Reporter.attach_file_to_allure over a filesystem mapping existing paths
to raw bytes.  The derived attachment name is the basename of the path with
its extension removed; a missing path is logged and nothing is attached;
the body is wrapped in an exception handler, so nothing is raised. -/
def attach_file_to_allure (fs : List (String × List Nat)) (file_path : String)
    (custom_name : Option String) : AttachResult :=
  let filename := custom_name.getD (py_splitext (py_basename file_path)).1
  match fs_lookup fs file_path with
  | none =>
    { attachments := [],
      logs := ["Cannot attach file: File not found at " ++ file_path],
      raised := false }
  | some contents =>
    let file_extension := py_lower (py_splitext file_path).2
    let attachment_type := (fs_lookup content_type_map file_extension).getD AttachmentType.TEXT
    { attachments := [{ name := filename, bytes := contents, attachment_type := attachment_type }],
      logs := ["File attached to Allure report: " ++ filename],
      raised := false }

/-- Observable outcome of Reporter.take_screenshot. -/
structure ScreenshotResult where
  logs : List String
  filesWritten : List String
  attachments : List String
  raised : Bool
deriving DecidableEq, Repr

/-- Reporter.take_screenshot: with no registered AltDriver it logs and
returns; otherwise it writes a PNG under screenshots-and-logs (named by the
custom name or a timestamp) and attaches it, swallowing any exception from
the driver call. -/
def take_screenshot (alt_driver : Option AltDriver) (screenshotOk : Bool)
    (cwd : String) (timestamp : Nat) (custom_name : Option String) : ScreenshotResult :=
  match alt_driver with
  | none =>
    { logs := ["Cannot take screenshot: AltDriver not set"],
      filesWritten := [], attachments := [], raised := false }
  | some _ =>
    let filename := custom_name.getD ("screenshot_" ++ toString timestamp)
    let screenshot_path :=
      py_path_join (py_path_join cwd "screenshots-and-logs") (filename ++ ".png")
    if screenshotOk then
      { logs := ["Screenshot taken: " ++ filename],
        filesWritten := [screenshot_path], attachments := [filename], raised := false }
    else
      { logs := ["Failed to take screenshot"],
        filesWritten := [], attachments := [], raised := false }

/-! ## Unity log listener (tests/conftest.py, setup_unity_log_listener) -/

/-- A log notification pushed by the AltTester client. -/
structure Notification where
  message : String
  stack_trace : String
deriving DecidableEq, Repr

/-- The per-run log file name built inside log_callback. -/
def unity_log_filename (testClassName runTimestamp : String) : String :=
  testClassName ++ "-UnityLogs-" ++ runTimestamp ++ ".txt"

/-- The log file name as the specification words it. -/
def claimed_unity_log_filename (testClassName runTimestamp : String) : String :=
  testClassName ++ "-Logs-" ++ runTimestamp ++ ".txt"

/-- The directory all screenshots and logs are written under. -/
def log_directory (cwd : String) : String :=
  py_path_join cwd "screenshots-and-logs"

/-- Full path of the per-run log file. -/
def unity_log_filepath (cwd testClassName runTimestamp : String) : String :=
  py_path_join (log_directory cwd) (unity_log_filename testClassName runTimestamp)

/-- State touched by the log listener: the filesystem and the unity_logs
dictionary mapping generated file names to file paths. -/
structure UnityLogState where
  files : List (String × List String)
  unity_logs : List (String × String)
deriving DecidableEq, Repr

/-- The state before any notification arrives. -/
def initialLogState : UnityLogState :=
  { files := [], unity_logs := [] }

/-- log_callback: append the message line and the stack-trace line to the
per-run file, and record the file in unity_logs when not yet present. -/
def log_callback (cwd testClassName runTimestamp : String)
    (st : UnityLogState) (n : Notification) : UnityLogState :=
  let filename := unity_log_filename testClassName runTimestamp
  let filepath := py_path_join (log_directory cwd) filename
  let files := fs_update st.files filepath [n.message, "StackTrace : " ++ n.stack_trace]
  let unity_logs :=
    if (fs_lookup st.unity_logs filename).isSome then st.unity_logs
    else st.unity_logs ++ [(filename, filepath)]
  { files := files, unity_logs := unity_logs }

/-- Deliver a list of notifications to the listener in arrival order. -/
def process_notifications (cwd testClassName runTimestamp : String)
    (st : UnityLogState) (ns : List Notification) : UnityLogState :=
  ns.foldl (log_callback cwd testClassName runTimestamp) st

/-- The lines the listener writes for a notification stream, in order. -/
def notificationLines : List Notification → List String
  | [] => []
  | n :: ns => n.message :: ("StackTrace : " ++ n.stack_trace) :: notificationLines ns

/-- Loop body of add_unity_logs_to_allure: iterate over a copy of the
unity_logs dictionary, attach each file, and pop the key.  Returns the
remaining dictionary and the (filepath, attachment name) pairs attached. -/
def flush_logs : List (String × String) → List (String × String) →
    List (String × String) × List (String × String)
  | [], dict => (dict, [])
  | (filename, filepath) :: rest, dict =>
    let dict2 := assoc_pop dict filename
    let r := flush_logs rest dict2
    (r.1, (filepath, filename) :: r.2)

/-- add_unity_logs_to_allure: flush the buffered log files to the report
and clear the buffer. -/
def add_unity_logs_to_allure (st : UnityLogState) :
    UnityLogState × List (String × String) :=
  let r := flush_logs st.unity_logs st.unity_logs
  ({ files := st.files, unity_logs := r.1 }, r.2)

/-! ## Stopping drivers (tests/conftest.py, stop_all_drivers) -/

/-- The three driver kinds handled by the fixture. -/
inductive DriverKind
  | alt
  | selenium
  | appium
deriving DecidableEq, Repr

/-- The stop statements stop_all_drivers executes, in source order: the
guard of each statement is whether the corresponding handle is set. -/
def stopSequence (c : DriverContainer) : List DriverKind :=
  (if c.alt_driver.isSome then [DriverKind.alt] else []) ++
  (if c.selenium_driver.isSome then [DriverKind.selenium] else []) ++
  (if c.appium_driver.isSome then [DriverKind.appium] else [])

/-- Run the stop statements inside the single try block: execution aborts
at the first stop call that raises.  Returns the stops attempted in order
and whether an exception reached the except clause. -/
def runStops (fails : DriverKind → Bool) : List DriverKind → List DriverKind × Bool
  | [] => ([], false)
  | k :: ks =>
    if fails k then ([k], true)
    else
      let r := runStops fails ks
      (k :: r.1, r.2)

/-- Observable outcome of stop_all_drivers. -/
structure StopResult where
  attempted : List DriverKind
  raisedToCaller : Bool
  errorLogged : Bool
  successLogged : Bool
deriving DecidableEq, Repr

/-- stop_all_drivers: one try block around the three guarded stop calls;
the except clause logs the error and does not re-raise. -/
def stop_all_drivers (c : DriverContainer) (fails : DriverKind → Bool) : StopResult :=
  let r := runStops fails (stopSequence c)
  { attempted := r.1, raisedToCaller := false, errorLogged := r.2, successLogged := !r.2 }

/-- Stop attempts predicted for the amended claim: the sequence up to and
including the first failing stop. -/
def upToFirstFailure (fails : DriverKind → Bool) : List DriverKind → List DriverKind
  | [] => []
  | k :: ks => if fails k then [k] else k :: upToFirstFailure fails ks

/-! ## Starting drivers (tests/conftest.py, start_all_drivers and helpers) -/

/-- Which external start calls raise in a given run. -/
structure StartBehavior where
  appiumConnectFails : Bool
  chromeStartFails : Bool
  altConnectFails : Bool
deriving DecidableEq, Repr

/-- Desired capabilities built for the android platform. -/
def androidCaps (cfg : TestConfiguration) : List (String × String) :=
  [("platformName", "Android"),
   ("automationName", "UiAutomator2"),
   ("newCommandTimeout", "2000"),
   ("autoGrantPermissions", "True"),
   ("deviceName", cfg.deviceName),
   ("appPackage", cfg.appBundleId)]

/-- Desired capabilities built for the ios platform. -/
def iosCaps (cfg : TestConfiguration) : List (String × String) :=
  [("platformName", "iOS"),
   ("deviceName", cfg.deviceName),
   ("bundleId", cfg.appBundleId)]

/-- start_appium_driver: build capabilities by platform and connect; on a
non-mobile platform it logs and returns None. -/
def start_appium_driver (cfg : TestConfiguration) (b : StartBehavior) :
    Except Unit (Option AppiumDriver) :=
  match cfg.platform with
  | PlatformType.android =>
    if b.appiumConnectFails then Except.error ()
    else Except.ok (some { caps := androidCaps cfg })
  | PlatformType.ios =>
    if b.appiumConnectFails then Except.error ()
    else Except.ok (some { caps := iosCaps cfg })
  | PlatformType.webgl => Except.ok none

/-- start_selenium_driver: on the WebGL platform start Chrome and navigate
to the configured URL; on any other platform it logs and returns None. -/
def start_selenium_driver (cfg : TestConfiguration) (b : StartBehavior) :
    Except Unit (Option SeleniumDriver) :=
  if cfg.platform = PlatformType.webgl then
    if b.chromeStartFails then Except.error ()
    else Except.ok (some { currentUrl := cfg.webglUrl })
  else Except.ok none

/-- start_alttester_driver: connect to the configured host and port. -/
def start_alttester_driver (cfg : TestConfiguration) (b : StartBehavior) :
    Except Unit AltDriver :=
  if b.altConnectFails then Except.error ()
  else Except.ok { host := cfg.altServerUrl, port := cfg.altServerPort, app_name := cfg.altAppName }

/-- start_all_drivers: appium first when enabled, then selenium when
enabled, then the AltTester driver; the container is built only at the
end.  On an exception the error value records the driver kinds already
constructed at that point — in the source these are locals that are lost
when the exception propagates. -/
def start_all_drivers (cfg : TestConfiguration) (b : StartBehavior) :
    Except (List DriverKind) DriverContainer :=
  let step1 : Except (List DriverKind) (Option AppiumDriver) :=
    if cfg.runningWithAppium then
      match start_appium_driver cfg b with
      | Except.error _ => Except.error []
      | Except.ok d => Except.ok d
    else Except.ok none
  match step1 with
  | Except.error s => Except.error s
  | Except.ok appium =>
    let started1 := if appium.isSome then [DriverKind.appium] else []
    let step2 : Except Unit (Option SeleniumDriver) :=
      if cfg.runningWithSelenium then start_selenium_driver cfg b else Except.ok none
    match step2 with
    | Except.error _ => Except.error started1
    | Except.ok selenium =>
      let started2 := started1 ++ (if selenium.isSome then [DriverKind.selenium] else [])
      match start_alttester_driver cfg b with
      | Except.error _ => Except.error started2
      | Except.ok alt =>
        Except.ok { alt_driver := some alt, appium_driver := appium, selenium_driver := selenium }

/-! ## The class-scoped fixture (tests/conftest.py, setup_drivers) -/

/-- Observable outcome of one run of the setup_drivers fixture for a test
class.  startedThenLeaked lists drivers constructed inside a failing
start_all_drivers call; the finally block skips stop_all_drivers for them
because the local drivers variable is still None. -/
structure FixtureOutcome where
  teardownRuns : Nat
  stopAttempted : List DriverKind
  startedThenLeaked : List DriverKind
  logsFlushed : Bool
  classFailed : Bool
deriving DecidableEq, Repr

/-- setup_drivers: try to start all drivers, register the listener, yield;
any exception fails the class; the finally block always flushes the
buffered logs and, when the drivers variable was assigned, stops them. -/
def setup_drivers (cfg : TestConfiguration) (sb : StartBehavior)
    (listenerFails : Bool) (stopFails : DriverKind → Bool) : FixtureOutcome :=
  match start_all_drivers cfg sb with
  | Except.error started =>
    { teardownRuns := 1, stopAttempted := [], startedThenLeaked := started,
      logsFlushed := true, classFailed := true }
  | Except.ok drivers =>
    { teardownRuns := 1,
      stopAttempted := (stop_all_drivers drivers stopFails).attempted,
      startedThenLeaked := [],
      logsFlushed := true,
      classFailed := listenerFails }

/-! ## Page objects (views/base_view.py, main_menu_view.py, gameplay_view.py) -/

/-- Python exceptions the page-object layer can produce or observe. -/
inductive PyError
  | attributeError (cls attr : String)
  | assertionError (msg : String)
  | driverError (msg : String)
deriving DecidableEq, Repr

/-- An element handle returned by the driver. -/
structure AltObject where
  enabled : Bool
deriving DecidableEq, Repr

/-- Attributes defined on BaseView: its methods and properties, plus the
instance attribute set in its constructor. -/
def baseViewAttrs : List String :=
  ["drivers", "alt_driver", "appium_driver", "selenium_driver",
   "click_object", "tap_object", "wait_for_object", "wait_for_object_which_contains",
   "wait_for_object_not_be_present", "set_text", "get_text", "is_object_present",
   "find_element", "get_current_scene", "load_scene", "take_screenshot", "wait"]

/-- Attributes defined on MainMenuView: its methods plus the locator
instance attributes set in its constructor. -/
def mainMenuViewAttrs : List String :=
  ["play_button_locator", "main_menu_panel_locator", "player_name_input_locator",
   "settings_button_locator",
   "click_play_button", "is_main_menu_visible", "enter_player_name",
   "navigate_to_settings", "wait_for_main_menu_ready", "start_new_game"]

/-- Attributes defined on GameplayView: its methods plus the locator
instance attributes set in its constructor. -/
def gameplayViewAttrs : List String :=
  ["pause_button_locator", "resume_button_locator", "main_character_locator",
   "game_hud_locator",
   "pause_game", "resume_game", "is_game_paused", "is_main_character_present",
   "get_main_character_position", "wait_for_gameplay_ready", "is_gameplay_hud_visible"]

/-- Python attribute lookup on a MainMenuView instance: the instance and
class attributes, then the BaseView attributes. -/
def getattrMainMenuView (attr : String) : Bool :=
  mainMenuViewAttrs.contains attr || baseViewAttrs.contains attr

/-- Python attribute lookup on a GameplayView instance. -/
def getattrGameplayView (attr : String) : Bool :=
  gameplayViewAttrs.contains attr || baseViewAttrs.contains attr

/-- The descriptive message of the assertion raised by find_element. -/
def find_element_error_message (elementName : String) : String :=
  "Element " ++ elementName ++ " was not found. " ++
  "Please verify the element exists in the current scene."

/-- BaseView.find_element: return the driver result, mapping any driver
exception to a descriptive assertion failure. -/
def find_element (findOutcome : Except PyError AltObject) (elementName : String) :
    Except PyError AltObject :=
  match findOutcome with
  | Except.ok o => Except.ok o
  | Except.error _ => Except.error (PyError.assertionError (find_element_error_message elementName))

/-- MainMenuView.click_play_button: the body resolves self.find_object
before anything: that attribute does not exist on MainMenuView or
BaseView, so an AttributeError is raised regardless of whether the
PlayButton element is present.  The findOutcome argument is the result
the driver lookup would produce and is never consulted. -/
def click_play_button (findOutcome : Except PyError AltObject) : Except PyError Unit :=
  if getattrMainMenuView "find_object" then
    match findOutcome with
    | Except.ok _ => Except.ok ()
    | Except.error e => Except.error e
  else
    Except.error (PyError.attributeError "MainMenuView" "find_object")

/-- BaseView.is_object_present: the driver call in a try block; any
exception is turned into False. -/
def is_object_present (findOutcome : Except PyError AltObject) : Except PyError Bool :=
  match findOutcome with
  | Except.ok _ => Except.ok true
  | Except.error _ => Except.ok false

/-- The except clause of the boolean visibility checks: any exception from
the try body yields False. -/
def except_to_false (body : Except PyError Bool) : Except PyError Bool :=
  match body with
  | Except.ok b => Except.ok b
  | Except.error _ => Except.ok false

/-- MainMenuView.is_main_menu_visible: resolve self.find_object (an
AttributeError, since the attribute does not exist), read .enabled, all
inside a try block whose except clause returns False. -/
def is_main_menu_visible (panelOutcome : Except PyError AltObject) : Except PyError Bool :=
  except_to_false
    (if getattrMainMenuView "find_object" then
      match panelOutcome with
      | Except.ok panel => Except.ok panel.enabled
      | Except.error e => Except.error e
    else
      Except.error (PyError.attributeError "MainMenuView" "find_object"))

/-- GameplayView.is_game_paused: same try/except shape around resolving
self.find_object and reading .enabled of the resume button. -/
def is_game_paused (resumeOutcome : Except PyError AltObject) : Except PyError Bool :=
  except_to_false
    (if getattrGameplayView "find_object" then
      match resumeOutcome with
      | Except.ok resumeButton => Except.ok resumeButton.enabled
      | Except.error e => Except.error e
    else
      Except.error (PyError.attributeError "GameplayView" "find_object"))

/-! ## Specification-side definitions and sample inputs -/

/-- The content type the specification assigns to a lowered extension. -/
def claimed_attachment_type (ext : String) : AttachmentType :=
  if ext = ".json" then AttachmentType.JSON
  else if ext = ".xml" then AttachmentType.XML
  else if ext = ".html" then AttachmentType.HTML
  else if ext = ".csv" then AttachmentType.CSV
  else AttachmentType.TEXT

/-- A concrete AltTester driver handle. -/
def sampleAltDriver : AltDriver :=
  { host := "127.0.0.1", port := 13000, app_name := "__default__" }

/-- A concrete selenium driver handle. -/
def sampleSeleniumDriver : SeleniumDriver :=
  { currentUrl := "https://example.com/game" }

/-- A concrete appium driver handle. -/
def sampleAppiumDriver : AppiumDriver :=
  { caps := [] }

/-- A container in which all three drivers were started. -/
def sampleFullContainer : DriverContainer :=
  { alt_driver := some sampleAltDriver,
    appium_driver := some sampleAppiumDriver,
    selenium_driver := some sampleSeleniumDriver }

/-- A run in which only the AltTester stop call raises. -/
def altStopFailure : DriverKind → Bool :=
  fun k => k == DriverKind.alt

/-- A run in which every stop call succeeds. -/
def noStopFailure : DriverKind → Bool :=
  fun _ => false

/-- The default android configuration with appium enabled. -/
def appiumConfig : TestConfiguration :=
  { platform := PlatformType.android, runningWithAppium := true, runningWithSelenium := false,
    webglUrl := "https://example.com/game", altServerUrl := "127.0.0.1", altServerPort := 13000,
    altAppName := "__default__", deviceName := "android", appBundleId := "com.example.app" }

/-- A run in which the AltTester connection raises after appium started. -/
def altConnectFailure : StartBehavior :=
  { appiumConnectFails := false, chromeStartFails := false, altConnectFails := true }

/-- The default android configuration with no optional drivers. -/
def plainConfig : TestConfiguration :=
  { platform := PlatformType.android, runningWithAppium := false, runningWithSelenium := false,
    webglUrl := "https://example.com/game", altServerUrl := "127.0.0.1", altServerPort := 13000,
    altAppName := "__default__", deviceName := "android", appBundleId := "com.example.app" }

/-- A run in which every start call succeeds. -/
def noStartFailure : StartBehavior :=
  { appiumConnectFails := false, chromeStartFails := false, altConnectFails := false }

/-- The container produced by a fully successful start with no optional
drivers configured. -/
def plainContainer : DriverContainer :=
  { alt_driver := some sampleAltDriver, appium_driver := none, selenium_driver := none }

/-- The WebGL configuration with browser testing enabled. -/
def webglConfig : TestConfiguration :=
  { platform := PlatformType.webgl, runningWithAppium := false, runningWithSelenium := true,
    webglUrl := "https://example.com/game", altServerUrl := "127.0.0.1", altServerPort := 13000,
    altAppName := "__default__", deviceName := "android", appBundleId := "com.example.app" }

/-- The container produced by a fully successful WebGL start. -/
def webglContainer : DriverContainer :=
  { alt_driver := some sampleAltDriver, appium_driver := none,
    selenium_driver := some sampleSeleniumDriver }

/-- A concrete Unity log notification. -/
def sampleNotification : Notification :=
  { message := "Scene loaded", stack_trace := "UnityEngine.Debug:Log" }

/-! ## Helper lemmas -/

/-- The try block attempts the stop sequence up to and including the first
failing stop, and the except clause fires exactly when some stop fails. -/
theorem runStops_eq (fails : DriverKind → Bool) (ks : List DriverKind) :
    runStops fails ks = (upToFirstFailure fails ks, ks.any fails) := by
  induction ks with
  | nil => rfl
  | cons k ks ih =>
    by_cases h : fails k = true
    · simp [runStops, upToFirstFailure, h]
    · simp only [Bool.not_eq_true] at h
      simp [runStops, upToFirstFailure, h, ih]

/-- Appending to a file changes exactly that file, by appending. -/
theorem fileLines_update_self (fs : List (String × List String)) (p : String)
    (ls : List String) :
    fileLines (fs_update fs p ls) p = fileLines fs p ++ ls := by
  induction fs with
  | nil => simp [fs_update, fileLines, fs_lookup]
  | cons e rest ih =>
    obtain ⟨q, old⟩ := e
    simp only [fileLines] at ih ⊢
    by_cases h : q = p
    · simp [fs_update, fs_lookup, h]
    · simp [fs_update, fs_lookup, h, ih]

/-- Appending to a file leaves every other file unchanged. -/
theorem fileLines_update_other (fs : List (String × List String)) (p q : String)
    (ls : List String) (h : q ≠ p) :
    fileLines (fs_update fs p ls) q = fileLines fs q := by
  have hpq : p ≠ q := Ne.symm h
  induction fs with
  | nil => simp [fs_update, fileLines, fs_lookup, hpq]
  | cons e rest ih =>
    obtain ⟨k, old⟩ := e
    simp only [fileLines] at ih ⊢
    by_cases hk : k = p
    · subst hk
      simp [fs_update, fs_lookup, hpq]
    · by_cases hq : k = q
      · simp [fs_update, fs_lookup, hk, hq, h]
      · simp [fs_update, fs_lookup, hk, hq, ih]

/-- The files component written by one callback invocation. -/
theorem log_callback_files (cwd cls ts : String) (st : UnityLogState) (n : Notification) :
    (log_callback cwd cls ts st n).files =
      fs_update st.files (unity_log_filepath cwd cls ts)
        [n.message, "StackTrace : " ++ n.stack_trace] := rfl

/-- The unity_logs component written by one callback invocation. -/
theorem log_callback_unity_logs (cwd cls ts : String) (st : UnityLogState) (n : Notification) :
    (log_callback cwd cls ts st n).unity_logs =
      (if (fs_lookup st.unity_logs (unity_log_filename cls ts)).isSome then st.unity_logs
       else st.unity_logs ++ [(unity_log_filename cls ts, unity_log_filepath cwd cls ts)]) := rfl

/-- The per-run log file accumulates the lines of every delivered
notification, in arrival order. -/
theorem process_fileLines (cwd cls ts : String) (ns : List Notification) (st : UnityLogState) :
    fileLines (process_notifications cwd cls ts st ns).files (unity_log_filepath cwd cls ts) =
      fileLines st.files (unity_log_filepath cwd cls ts) ++ notificationLines ns := by
  induction ns generalizing st with
  | nil => simp [process_notifications, notificationLines]
  | cons n ns ih =>
    have h1 : process_notifications cwd cls ts st (n :: ns) =
        process_notifications cwd cls ts (log_callback cwd cls ts st n) ns := rfl
    rw [h1, ih, log_callback_files, fileLines_update_self]
    simp [notificationLines]

/-- Once the per-run file is recorded in unity_logs the dictionary is
stable under further notifications. -/
theorem process_unity_logs_stable (cwd cls ts : String) (ns : List Notification)
    (st : UnityLogState)
    (h : (fs_lookup st.unity_logs (unity_log_filename cls ts)).isSome = true) :
    (process_notifications cwd cls ts st ns).unity_logs = st.unity_logs := by
  induction ns generalizing st with
  | nil => rfl
  | cons n ns ih =>
    have h1 : process_notifications cwd cls ts st (n :: ns) =
        process_notifications cwd cls ts (log_callback cwd cls ts st n) ns := rfl
    have h2 : (log_callback cwd cls ts st n).unity_logs = st.unity_logs := by
      rw [log_callback_unity_logs, if_pos h]
    rw [h1, ih (log_callback cwd cls ts st n) (by rw [h2]; exact h), h2]

/-- Dictionary lookup with the default is the content type table of the
specification: the two explicit text entries coincide with the default. -/
theorem content_type_from_map (ext : String) :
    (fs_lookup content_type_map ext).getD AttachmentType.TEXT = claimed_attachment_type ext := by
  by_cases h1 : ext = ".txt"
  · subst h1; rfl
  by_cases h2 : ext = ".log"
  · subst h2; rfl
  by_cases h3 : ext = ".json"
  · subst h3; rfl
  by_cases h4 : ext = ".xml"
  · subst h4; rfl
  by_cases h5 : ext = ".html"
  · subst h5; rfl
  by_cases h6 : ext = ".csv"
  · subst h6; rfl
  simp [content_type_map, fs_lookup, claimed_attachment_type,
    Ne.symm h1, Ne.symm h2, Ne.symm h3, Ne.symm h4, Ne.symm h5, Ne.symm h6,
    h3, h4, h5, h6]

/-! ## Claim theorems -/

/-- C1, counterexample: with all three drivers started and the AltTester
stop raising, the selenium quit is never attempted, refuting the claimed
independence of the stop operations (the failure is logged, not
re-raised, but the remaining stops are skipped). -/
theorem stop_all_drivers_not_independent_cex :
    sampleFullContainer.selenium_driver.isSome = true ∧
    DriverKind.selenium ∉ (stop_all_drivers sampleFullContainer altStopFailure).attempted ∧
    DriverKind.appium ∉ (stop_all_drivers sampleFullContainer altStopFailure).attempted ∧
    (stop_all_drivers sampleFullContainer altStopFailure).errorLogged = true ∧
    (stop_all_drivers sampleFullContainer altStopFailure).raisedToCaller = false := by
  decide

/-- C1, amended: stop_all_drivers never re-raises a stop failure to the
caller and logs it instead, but the stop calls run inside one try block in
the fixed order alt, selenium, appium, so the stops after the first
failing one are not attempted. -/
theorem stop_all_drivers_amended (c : DriverContainer) (fails : DriverKind → Bool) :
    (stop_all_drivers c fails).raisedToCaller = false ∧
    (stop_all_drivers c fails).attempted = upToFirstFailure fails (stopSequence c) ∧
    (stop_all_drivers c fails).errorLogged = (stopSequence c).any fails := by
  simp [stop_all_drivers, runStops_eq]

/-- C3: click_play_button resolves the attribute find_object, which is
defined neither on MainMenuView nor on BaseView, so it raises an
AttributeError whatever the driver lookup would return — never the
assertion naming PlayButton and a timeout that the specification
describes (that message shape belongs to wait_for_object / find_element,
which the method does not call). -/
theorem click_play_button_attribute_error (findOutcome : Except PyError AltObject) :
    click_play_button findOutcome =
      Except.error (PyError.attributeError "MainMenuView" "find_object") := by
  have h : getattrMainMenuView "find_object" = false := by decide
  simp [click_play_button, h]

/-- C5: with no registered primary driver, take_screenshot logs a message
and returns without raising, writing a file, or attaching anything,
whatever the custom name and the rest of the environment. -/
theorem take_screenshot_no_driver_soft (screenshotOk : Bool) (cwd : String)
    (timestamp : Nat) (custom_name : Option String) :
    (take_screenshot none screenshotOk cwd timestamp custom_name).raised = false ∧
    (take_screenshot none screenshotOk cwd timestamp custom_name).filesWritten = [] ∧
    (take_screenshot none screenshotOk cwd timestamp custom_name).attachments = [] ∧
    (take_screenshot none screenshotOk cwd timestamp custom_name).logs =
      ["Cannot take screenshot: AltDriver not set"] :=
  ⟨rfl, rfl, rfl, rfl⟩

/-- C6: for every path absent from the filesystem and every optional
custom name, attach_file_to_allure logs a message and returns without
raising or attaching anything. -/
theorem attach_file_missing_soft (fs : List (String × List Nat)) (file_path : String)
    (custom_name : Option String) (h : fs_lookup fs file_path = none) :
    (attach_file_to_allure fs file_path custom_name).raised = false ∧
    (attach_file_to_allure fs file_path custom_name).attachments = [] ∧
    (attach_file_to_allure fs file_path custom_name).logs =
      ["Cannot attach file: File not found at " ++ file_path] := by
  simp [attach_file_to_allure, h]

/-- C6, witness: the empty filesystem and a concrete missing path. -/
theorem attach_file_missing_soft_witness :
    (attach_file_to_allure [] "missing.txt" none).raised = false ∧
    (attach_file_to_allure [] "missing.txt" none).attachments = [] ∧
    (attach_file_to_allure [] "missing.txt" none).logs =
      ["Cannot attach file: File not found at " ++ "missing.txt"] :=
  attach_file_missing_soft [] "missing.txt" none rfl

/-- C9: for every existing file, attach_file_to_allure attaches exactly the
raw bytes under the given or derived name, with the content type selected
from the lowered file extension as the specification states, and raises
nothing. -/
theorem attach_file_content_type (fs : List (String × List Nat)) (file_path : String)
    (custom_name : Option String) (contents : List Nat)
    (h : fs_lookup fs file_path = some contents) :
    (attach_file_to_allure fs file_path custom_name).attachments =
      [{ name := custom_name.getD (py_splitext (py_basename file_path)).1,
         bytes := contents,
         attachment_type := claimed_attachment_type (py_lower (py_splitext file_path).2) }] ∧
    (attach_file_to_allure fs file_path custom_name).raised = false := by
  simp [attach_file_to_allure, h, content_type_from_map]

/-- C9, witness: a concrete one-file filesystem holding a json report. -/
theorem attach_file_content_type_witness :
    (attach_file_to_allure [("logs/report.json", [1, 2, 3])] "logs/report.json" none).attachments =
      [{ name := Option.getD none (py_splitext (py_basename "logs/report.json")).1,
         bytes := [1, 2, 3],
         attachment_type := claimed_attachment_type (py_lower (py_splitext "logs/report.json").2) }] ∧
    (attach_file_to_allure [("logs/report.json", [1, 2, 3])] "logs/report.json" none).raised = false :=
  attach_file_content_type [("logs/report.json", [1, 2, 3])] "logs/report.json" none [1, 2, 3]
    (by decide)

/-- C10: the boolean presence checks always produce a boolean and never
propagate an exception: is_object_present maps every driver exception to
False, and is_main_menu_visible and is_game_paused return False on every
input because their try bodies resolve the missing find_object attribute,
whose AttributeError the except clause also swallows. -/
theorem presence_checks_never_raise (o p r : Except PyError AltObject) (e : PyError) :
    is_object_present (Except.error e) = Except.ok false ∧
    (∃ b, is_object_present o = Except.ok b) ∧
    is_main_menu_visible p = Except.ok false ∧
    is_game_paused r = Except.ok false := by
  have hm : getattrMainMenuView "find_object" = false := by decide
  have hg : getattrGameplayView "find_object" = false := by decide
  refine ⟨rfl, ?_, ?_, ?_⟩
  · cases o with
    | ok v => exact ⟨true, rfl⟩
    | error e2 => exact ⟨false, rfl⟩
  · simp [is_main_menu_visible, except_to_false, hm]
  · simp [is_game_paused, except_to_false, hg]

/-- C2, counterexample: with appium enabled on android and the AltTester
connection raising during start_all_drivers, the appium driver is started
and then leaked: teardown runs, but no stop is attempted because the
fixture's drivers variable was never assigned. -/
theorem setup_partial_start_leak_cex :
    DriverKind.appium ∈
      (setup_drivers appiumConfig altConnectFailure false noStopFailure).startedThenLeaked ∧
    (setup_drivers appiumConfig altConnectFailure false noStopFailure).stopAttempted = [] ∧
    DriverKind.appium ∉
      (setup_drivers appiumConfig altConnectFailure false noStopFailure).stopAttempted ∧
    (setup_drivers appiumConfig altConnectFailure false noStopFailure).teardownRuns = 1 := by
  decide

/-- C2, amended: the class teardown (the finally block) executes exactly
once and flushes the buffered logs for every setup outcome; when
start_all_drivers returns a container, its drivers have their stops
attempted there (in order, up to the first stop failure); but when
start_all_drivers itself raises, no stop is attempted, and the drivers
already constructed inside it are leaked. -/
theorem setup_drivers_amended (cfg : TestConfiguration) (sb : StartBehavior)
    (lf : Bool) (stopFails : DriverKind → Bool) :
    (setup_drivers cfg sb lf stopFails).teardownRuns = 1 ∧
    (setup_drivers cfg sb lf stopFails).logsFlushed = true ∧
    (∀ c, start_all_drivers cfg sb = Except.ok c →
      (setup_drivers cfg sb lf stopFails).stopAttempted =
        upToFirstFailure stopFails (stopSequence c)) ∧
    (∀ s, start_all_drivers cfg sb = Except.error s →
      (setup_drivers cfg sb lf stopFails).stopAttempted = [] ∧
      (setup_drivers cfg sb lf stopFails).startedThenLeaked = s) := by
  cases h : start_all_drivers cfg sb with
  | ok c =>
    refine ⟨by simp [setup_drivers, h], by simp [setup_drivers, h], ?_, ?_⟩
    · intro c2 h2
      injection h2 with h3
      subst h3
      simp [setup_drivers, h, stop_all_drivers, runStops_eq]
    · intro s h2
      exact absurd h2 (by simp)
  | error s =>
    refine ⟨by simp [setup_drivers, h], by simp [setup_drivers, h], ?_, ?_⟩
    · intro c2 h2
      exact absurd h2 (by simp)
    · intro s2 h2
      injection h2 with h3
      subst h3
      exact ⟨by simp [setup_drivers, h], by simp [setup_drivers, h]⟩

/-- C2, witness: a fully successful plain setup, where teardown runs once
and the started AltTester driver has its stop attempted. -/
theorem setup_drivers_amended_witness :
    (setup_drivers plainConfig noStartFailure false noStopFailure).teardownRuns = 1 ∧
    (setup_drivers plainConfig noStartFailure false noStopFailure).stopAttempted =
      upToFirstFailure noStopFailure (stopSequence plainContainer) :=
  ⟨(setup_drivers_amended plainConfig noStartFailure false noStopFailure).1,
   (setup_drivers_amended plainConfig noStartFailure false noStopFailure).2.2.1
     plainContainer rfl⟩

/-- C4, counterexample: the per-run log file name the callback builds uses
the literal UnityLogs, not Logs, so the claimed name is wrong at a
concrete class name and timestamp. -/
theorem unity_log_filename_cex :
    unity_log_filename "TestMainMenu" "20260101_120000" ≠
      claimed_unity_log_filename "TestMainMenu" "20260101_120000" := by
  decide

/-- C4, amended: the callback writes exactly one file, located under the
fixed screenshots-and-logs directory relative to the working directory
and named with the test class name, the literal UnityLogs, and the run
timestamp; every other path is untouched. -/
theorem unity_log_file_location_amended (cwd cls ts : String) (st : UnityLogState)
    (n : Notification) :
    unity_log_filepath cwd cls ts =
      py_path_join (py_path_join cwd "screenshots-and-logs")
        (cls ++ "-UnityLogs-" ++ ts ++ ".txt") ∧
    fileLines (log_callback cwd cls ts st n).files (unity_log_filepath cwd cls ts) =
      fileLines st.files (unity_log_filepath cwd cls ts) ++
        [n.message, "StackTrace : " ++ n.stack_trace] ∧
    (∀ q, q ≠ unity_log_filepath cwd cls ts →
      fileLines (log_callback cwd cls ts st n).files q = fileLines st.files q) := by
  refine ⟨rfl, ?_, ?_⟩
  · rw [log_callback_files, fileLines_update_self]
  · intro q hq
    rw [log_callback_files, fileLines_update_other _ _ _ _ hq]

/-- C4, witness: a concrete callback invocation, showing an unrelated path
unchanged and the file path equation at concrete strings. -/
theorem unity_log_file_location_amended_witness :
    fileLines (log_callback "/proj" "TestMainMenu" "20260101_120000" initialLogState
        sampleNotification).files "other.txt" =
      fileLines initialLogState.files "other.txt" ∧
    unity_log_filepath "/proj" "TestMainMenu" "20260101_120000" =
      py_path_join (py_path_join "/proj" "screenshots-and-logs")
        ("TestMainMenu" ++ "-UnityLogs-" ++ "20260101_120000" ++ ".txt") :=
  ⟨(unity_log_file_location_amended "/proj" "TestMainMenu" "20260101_120000" initialLogState
      sampleNotification).2.2 "other.txt" (by decide),
   (unity_log_file_location_amended "/proj" "TestMainMenu" "20260101_120000" initialLogState
      sampleNotification).1⟩

/-- C7: starting from the empty state, the per-run log file holds the
lines of every delivered notification in arrival order (message, then its
stack trace), and the unity_logs buffer is empty after the flush. -/
theorem unity_logs_flush_complete (cwd cls ts : String) (ns : List Notification) :
    fileLines (process_notifications cwd cls ts initialLogState ns).files
      (unity_log_filepath cwd cls ts) = notificationLines ns ∧
    (add_unity_logs_to_allure
      (process_notifications cwd cls ts initialLogState ns)).1.unity_logs = [] := by
  constructor
  · rw [process_fileLines]
    simp [initialLogState, fileLines, fs_lookup]
  · cases ns with
    | nil => rfl
    | cons n ns =>
      have h1 : process_notifications cwd cls ts initialLogState (n :: ns) =
          process_notifications cwd cls ts (log_callback cwd cls ts initialLogState n) ns := rfl
      have h2 : (log_callback cwd cls ts initialLogState n).unity_logs =
          [(unity_log_filename cls ts, unity_log_filepath cwd cls ts)] := by
        rw [log_callback_unity_logs]
        simp [initialLogState, fs_lookup]
      have h3 := process_unity_logs_stable cwd cls ts ns
        (log_callback cwd cls ts initialLogState n) (by rw [h2]; simp [fs_lookup])
      rw [h1]
      simp [add_unity_logs_to_allure, h3, h2, flush_logs, assoc_pop]

/-- C8: whenever start_all_drivers returns a container, the selenium
handle is set exactly when browser testing is enabled and the platform is
WebGL, and it was navigated to the configured URL. -/
theorem selenium_driver_iff_webgl (cfg : TestConfiguration) (b : StartBehavior)
    (c : DriverContainer) (h : start_all_drivers cfg b = Except.ok c) :
    c.selenium_driver =
      (if cfg.runningWithSelenium ∧ cfg.platform = PlatformType.webgl
       then some { currentUrl := cfg.webglUrl } else none) := by
  obtain ⟨plat, wap, wsel, url, surl, sport, app, dev, bundle⟩ := cfg
  obtain ⟨af, cf, altf⟩ := b
  cases plat <;> cases wap <;> cases wsel <;> cases af <;> cases cf <;> cases altf <;>
    simp_all [start_all_drivers, start_appium_driver, start_selenium_driver,
      start_alttester_driver] <;>
    simp [← h]

/-- C8, witness: the WebGL configuration with browser testing enabled and
a fully successful start. -/
theorem selenium_driver_iff_webgl_witness :
    webglContainer.selenium_driver =
      (if webglConfig.runningWithSelenium ∧ webglConfig.platform = PlatformType.webgl
       then some { currentUrl := webglConfig.webglUrl } else none) :=
  selenium_driver_iff_webgl webglConfig noStartFailure webglContainer rfl
